import Mathlib

/-!
Shallow embedding of the respirex-frontend client logic.

The embedded code lives in:
  * src/app/page.tsx  — the main Next.js page (component Home): state hooks,
    handleUpload, the recording helpers (startRecording, addCrackle, addWheeze,
    clearAnnotations), the probability-list rendering and the event-marker
    overlay;
  * src/src/App.jsx   — an earlier variant (component App): modelOptions and
    handlePredict;
  * src/unnamed/part_000 — an earlier revision of the main page whose
    probability rendering has no slice and whose overlay matches page.tsx.

JavaScript numbers are modelled as rationals, DOM state as an explicit record,
and the single asynchronous axios round trip as a function from the pre-call
state and the network outcome to the issued requests plus the settled state.
-/

namespace Respirex

/-- An audio file as held in the `file` React state (name, byte size, MIME). -/
structure FileData where
  name : String
  size : Nat
  mime : String
deriving DecidableEq

/-- The `selectedModel` state of page.tsx: the string union
`'disease' | 'annotation'`; `annot` embeds the string value `'annotation'`. -/
inductive Model where
  | disease
  | annot
deriving DecidableEq

/-- One manually recorded event, as appended by addCrackle and addWheeze:
`{type, timestamp, duration}` with the timestamp in seconds. -/
structure AnnotEvent where
  type : String
  timestamp : ℚ
  duration : ℚ
deriving DecidableEq

/-- The `audio_info` field of both response shapes. -/
structure AudioInfo where
  duration : ℚ
  sample_rate : ℚ
deriving DecidableEq

/-- One detected interval of the event-detection response shape.  The JSON
field `end` is a Lean keyword, hence the guillemets. -/
structure DetectedEvent where
  start : ℚ
  «end» : ℚ
  label : String
  confidence : ℚ
deriving DecidableEq

/-- The classification response shape (interface DiseasePredictionResult).
`class_probabilities` is a JSON object; `Object.entries` enumerates it in
insertion order, so it is embedded as an ordered association list. -/
structure DiseaseResult where
  success : Bool
  filename : String
  prediction : String
  confidence : ℚ
  class_probabilities : List (String × ℚ)
  audio_info : AudioInfo
deriving DecidableEq

/-- The event-detection response shape (interface AnnotationPredictionResult
in page.tsx). -/
structure AnnotResult where
  success : Bool
  filename : String
  disease : String
  confidence : ℚ
  events : List DetectedEvent
  audio_info : AudioInfo
deriving DecidableEq

/-- The tagged union `type PredictionResult` of the two response shapes. -/
inductive PredictionResult where
  | disease (r : DiseaseResult)
  | annot (r : AnnotResult)
deriving DecidableEq

/-- The React state of the Home component in page.tsx that the upload and
recording logic reads and writes.  `annotEvents` embeds the state hook named
`annotationEvents` in the source. -/
structure PageState where
  file : Option FileData
  selectedModel : Model
  isUploading : Bool
  result : Option PredictionResult
  error : Option String
  isRecording : Bool
  recordStartTime : Option ℚ
  annotEvents : List AnnotEvent
  recordingDuration : ℚ
deriving DecidableEq

/-- The body handed to axios.post: either a FormData with its ordered fields,
or the JSON object `{events, duration}` of the annotation submission. -/
inductive RequestBody where
  | multipart (fields : List (String × FileData))
  | jsonEvents (events : List AnnotEvent) (duration : ℚ)
deriving DecidableEq

/-- One dispatched HTTP request with its axios config.  `timeoutMs` is the
`timeout` config entry; `none` when the call sets no timeout. -/
structure HttpRequest where
  method : String
  url : String
  body : RequestBody
  contentType : String
  timeoutMs : Option Nat
deriving DecidableEq

/-- The observable parts of an axios rejection `err`: `err.response?.status`,
`err.response?.data?.error`, `err.response?.data?.detail`, `err.code` and
`err.message`. -/
structure AxiosErr where
  responseStatus : Option Nat
  responseDataError : Option String
  responseDataDetail : Option String
  code : Option String
  message : String
deriving DecidableEq

/-- How the single awaited axios call settles: with a parsed JSON body, or
with a rejection. -/
inductive NetOutcome where
  | ok (data : PredictionResult)
  | fail (e : AxiosErr)
deriving DecidableEq

/-- JavaScript truthiness of an optional string: `undefined`, `null` and the
empty string are falsy. -/
def truthyStr : Option String → Bool
  | none => false
  | some s => s != ""

/-- Embeds the JavaScript idiom `o || d` for an optional string `o`. -/
def jsOrElse (o : Option String) (d : String) : String :=
  match o with
  | some s => if s != "" then s else d
  | none => d

/-- Embeds `const API_BASE_URL = process.env.NEXT_PUBLIC_API_URL || fallback`
of page.tsx. -/
def apiBaseUrl (env : Option String) : String :=
  jsOrElse env "https://respirex-api-ml.onrender.com"

/-- The catch branch of the disease path of handleUpload
(page.tsx lines 100 to 111): an if chain over the rejection object. -/
def classifyDiseaseErr (e : AxiosErr) : String :=
  if e.responseStatus = some 500 then
    "Server error. Please try again later."
  else if truthyStr e.responseDataError then
    "Error: " ++ e.responseDataError.getD ""
  else if e.code = some "ECONNABORTED" then
    "Request timeout. The audio file might be too large."
  else if e.responseStatus = some 400 then
    "Invalid audio file. Please upload a valid audio file."
  else
    "Failed to process audio file: " ++ e.message

/-- The catch branch of the annotation path of handleUpload
(page.tsx lines 138 to 147). -/
def classifyAnnotErr (e : AxiosErr) : String :=
  if e.responseStatus = some 500 then
    "Server error. Please try again later."
  else if truthyStr e.responseDataError then
    "Error: " ++ e.responseDataError.getD ""
  else if e.code = some "ECONNABORTED" then
    "Request timeout. Please try again."
  else
    "Failed to process annotation data: " ++ e.message

/-- What one call of an async submission handler does: the requests it
dispatches, whether it entered the uploading state, and the state once the
handler has settled. -/
structure UploadOut where
  requests : List HttpRequest
  dispatched : Bool
  final : PageState
deriving DecidableEq

/-- Embeds handleUpload of page.tsx (lines 80 to 152), parameterised by the
computed API base URL and by how the awaited axios call settles.

Disease branch: `if (!file) return`; otherwise set isUploading, clear error,
post the FormData with the single field `file` to `base ++ "/predict_disease"`
with a 30000 ms timeout; on success store `response.data`, on rejection store
the classified message; finally clear isUploading.

Annotation branch: with no recorded events set the no-events message and
return without any call; otherwise post the JSON `{events, duration}` to
`base ++ "/predict_annotation"` with a 30000 ms timeout, settling the same
way with its own classifier. -/
def handleUpload (base : String) (s : PageState) (net : NetOutcome) : UploadOut :=
  match s.selectedModel with
  | .disease =>
    match s.file with
    | none => ⟨[], false, s⟩
    | some f =>
      let req : HttpRequest :=
        ⟨"POST", base ++ "/predict_disease", .multipart [("file", f)],
          "multipart/form-data", some 30000⟩
      let s1 := { s with isUploading := true, error := none }
      match net with
      | .ok data => ⟨[req], true, { s1 with result := some data, isUploading := false }⟩
      | .fail e =>
          ⟨[req], true, { s1 with error := some (classifyDiseaseErr e), isUploading := false }⟩
  | .annot =>
    if s.annotEvents.length = 0 then
      ⟨[], false, { s with error := some "Please record some crackles or wheezes first." }⟩
    else
      let req : HttpRequest :=
        ⟨"POST", base ++ "/predict_annotation",
          .jsonEvents s.annotEvents s.recordingDuration,
          "application/json", some 30000⟩
      let s1 := { s with isUploading := true, error := none }
      match net with
      | .ok data => ⟨[req], true, { s1 with result := some data, isUploading := false }⟩
      | .fail e =>
          ⟨[req], true, { s1 with error := some (classifyAnnotErr e), isUploading := false }⟩

/-- Embeds `recordStartTime ? (Date.now() - recordStartTime) / 1000 : 0` with
JavaScript truthiness (null and 0 are falsy). -/
def tsSince (t : Option ℚ) (now : ℚ) : ℚ :=
  match t with
  | some t0 => if t0 = 0 then 0 else (now - t0) / 1000
  | none => 0

/-- Embeds startRecording of page.tsx (lines 155 to 162); `now` is the value
of `Date.now()` in milliseconds. -/
def startRecording (now : ℚ) (s : PageState) : PageState :=
  { s with isRecording := true, recordStartTime := some now,
           annotEvents := [], recordingDuration := 0,
           error := none, result := none }

/-- Embeds stopRecording of page.tsx (lines 164 to 170). -/
def stopRecording (now : ℚ) (s : PageState) : PageState :=
  let s1 := { s with isRecording := false }
  let s2 :=
    match s.recordStartTime with
    | some t0 => if t0 = 0 then s1 else { s1 with recordingDuration := (now - t0) / 1000 }
    | none => s1
  { s2 with recordStartTime := none }

/-- Embeds addCrackle of page.tsx (lines 172 to 176). -/
def addCrackle (now : ℚ) (s : PageState) : PageState :=
  if s.isRecording = false then s
  else
    { s with annotEvents :=
        s.annotEvents ++ [⟨"crackle", tsSince s.recordStartTime now, 1/2⟩] }

/-- Embeds addWheeze of page.tsx (lines 178 to 182). -/
def addWheeze (now : ℚ) (s : PageState) : PageState :=
  if s.isRecording = false then s
  else
    { s with annotEvents :=
        s.annotEvents ++ [⟨"wheeze", tsSince s.recordStartTime now, 1⟩] }

/-- Embeds clearAnnotations of page.tsx (lines 184 to 188). -/
def clearAnnots (s : PageState) : PageState :=
  { s with annotEvents := [], recordingDuration := 0, result := none }

/-- A user action on the recording interface, tagged with the value of
`Date.now()` at the moment of the click. -/
inductive UiAction where
  | startRec (now : ℚ)
  | stopRec (now : ℚ)
  | crackle (now : ℚ)
  | wheeze (now : ℚ)
deriving DecidableEq

/-- The state transition each recording action performs. -/
def stepUi (s : PageState) : UiAction → PageState
  | .startRec t => startRecording t s
  | .stopRec t => stopRecording t s
  | .crackle t => addCrackle t s
  | .wheeze t => addWheeze t s

/-- Whether an action is one of the two tag-press buttons. -/
def isTap : UiAction → Bool
  | .crackle _ => true
  | .wheeze _ => true
  | _ => false

/-- The event a tag press at time `t` appends when the window started at
`t0`: exactly what addCrackle and addWheeze build from `Date.now()`. -/
def eventOfTap (t0 : ℚ) : UiAction → AnnotEvent
  | .crackle t => ⟨"crackle", (t - t0) / 1000, 1/2⟩
  | .wheeze t => ⟨"wheeze", (t - t0) / 1000, 1⟩
  | _ => ⟨"", 0, 0⟩

/-- The comparator passed to `.sort` in the probability rendering:
`(b - a)` on the numeric components, i.e. descending by probability.
JavaScript `Array.prototype.sort` is stable, so the rendering equals the
unique stable descending reordering, which is what `List.insertionSort`
computes for this reflexive-on-ties relation. -/
def probGE (a b : String × ℚ) : Prop := b.2 ≤ a.2

instance : DecidableRel probGE := fun a b => inferInstanceAs (Decidable (b.2 ≤ a.2))

instance : IsTotal (String × ℚ) probGE := ⟨fun a b => le_total b.2 a.2⟩

instance : IsTrans (String × ℚ) probGE := ⟨fun _ _ _ h1 h2 => le_trans h2 h1⟩

/-- `Object.entries(result.class_probabilities).sort(([,a],[,b]) => b - a)` as
a stable descending sort of the ordered entry list. -/
def sortProbsDesc (l : List (String × ℚ)) : List (String × ℚ) :=
  l.insertionSort probGE

/-- The probability list rendered by page.tsx (lines 800 to 803): sort then
`.slice(0, 5)`. -/
def renderProbsPage (l : List (String × ℚ)) : List (String × ℚ) :=
  (sortProbsDesc l).take 5

/-- The probability list rendered by part_000 (lines 320 to 322): sort with
no slice. -/
def renderProbsAll (l : List (String × ℚ)) : List (String × ℚ) :=
  sortProbsDesc l

/-- The CSS `left` of an event marker as a fraction of the bar width:
`event.start / result.audio_info.duration` (page.tsx line 856; the source
multiplies by 100 to render it as a percentage). -/
def overlayLeftFrac (ev : DetectedEvent) (dur : ℚ) : ℚ :=
  ev.start / dur

/-- The CSS `width` of an event marker as a fraction of the bar width:
`(event.end - event.start) / result.audio_info.duration`
(page.tsx line 857). -/
def overlayWidthFrac (ev : DetectedEvent) (dur : ℚ) : ℚ :=
  (ev.«end» - ev.start) / dur

/-- A well-formed response interval: positive total duration and an interval
lying inside the audio. -/
def wellFormedEvent (ev : DetectedEvent) (dur : ℚ) : Prop :=
  0 < dur ∧ 0 ≤ ev.start ∧ ev.start ≤ ev.«end» ∧ ev.«end» ≤ dur

/-- The React state of the App component in src/src/App.jsx. -/
structure AppState where
  selectedFile : Option FileData
  selectedModel : String
  isLoading : Bool
  result : Option PredictionResult
  error : Option String
deriving DecidableEq

/-- One entry of `modelOptions` in App.jsx. -/
structure ModelOption where
  value : String
  label : String
  endpoint : String
deriving DecidableEq

/-- Embeds `modelOptions` of App.jsx (lines 15 to 18). -/
def modelOptions : List ModelOption :=
  [⟨"disease", "Disease Classifier", "/predict_disease"⟩,
   ⟨"event", "Event Detector", "/predict_event"⟩]

/-- Embeds `const API_BASE_URL = 'http://localhost:8000'` of App.jsx. -/
def appBaseUrl : String := "http://localhost:8000"

/-- Outcome record of one handlePredict call of App.jsx. -/
structure AppOut where
  requests : List HttpRequest
  dispatched : Bool
  final : AppState
deriving DecidableEq

/-- Embeds handlePredict of App.jsx (lines 29 to 60).  With no selected file
it sets the message and returns without a call.  Otherwise it sets isLoading,
clears error and result, posts the FormData with the single field `file` to
the endpoint looked up in modelOptions — with no timeout in the axios config —
and on rejection stores `err.response?.data?.detail || generic`.  When the
lookup finds no option the source dereferences `undefined` inside the try
block, so the catch stores the generic message without a call. -/
def handlePredict (s : AppState) (net : NetOutcome) : AppOut :=
  match s.selectedFile with
  | none => ⟨[], false, { s with error := some "Please select an audio file first" }⟩
  | some f =>
    let s1 := { s with isLoading := true, error := none, result := none }
    match modelOptions.find? (fun o => o.value = s.selectedModel) with
    | none =>
        ⟨[], true,
          { s1 with error := some "An error occurred while processing the audio file",
                    isLoading := false }⟩
    | some opt =>
      let req : HttpRequest :=
        ⟨"POST", appBaseUrl ++ opt.endpoint, .multipart [("file", f)],
          "multipart/form-data", none⟩
      match net with
      | .ok data => ⟨[req], true, { s1 with result := some data, isLoading := false }⟩
      | .fail e =>
          let msg := jsOrElse e.responseDataDetail
            "An error occurred while processing the audio file"
          ⟨[req], true, { s1 with error := some msg, isLoading := false }⟩

/-! Concrete inputs used by the witnesses and counterexamples. -/

/-- A concrete audio file. -/
def wFile : FileData := ⟨"breath.wav", 524288, "audio/wav"⟩

/-- A concrete recorded event list. -/
def wEvents : List AnnotEvent := [⟨"crackle", 3/2, 1/2⟩, ⟨"wheeze", 7/2, 1⟩]

/-- A concrete classification response body. -/
def wRes : PredictionResult :=
  .disease ⟨true, "breath.wav", "COPD", 9/10,
    [("COPD", 9/10), ("Healthy", 1/10)], ⟨20, 44100⟩⟩

/-- A concrete page state in disease mode with a file selected. -/
def wStateD : PageState :=
  ⟨some wFile, .disease, false, none, none, false, none, [], 0⟩

/-- A concrete page state in annotation mode with recorded events. -/
def wStateA : PageState :=
  ⟨none, .annot, false, none, none, false, none, wEvents, 21/2⟩

/-- A concrete page state in annotation mode with no recorded events. -/
def wStateAEmpty : PageState :=
  ⟨none, .annot, false, some wRes, some "old", false, none, [], 0⟩

/-- A concrete page state in disease mode with no file selected. -/
def wStateNoFile : PageState :=
  ⟨none, .disease, false, none, none, false, none, [], 0⟩

/-- A concrete App.jsx state with a file selected. -/
def wAppState : AppState := ⟨some wFile, "disease", false, none, none⟩

/-- A concrete App.jsx state with no file selected. -/
def wAppStateNoFile : AppState := ⟨none, "disease", false, none, none⟩

/-- A rejection with a 503 status and no error payload. -/
def w503Err : AxiosErr :=
  ⟨some 503, none, none, none, "Request failed with status code 503"⟩

/-- A rejection with a 500 status. -/
def w500Err : AxiosErr :=
  ⟨some 500, none, none, none, "Request failed with status code 500"⟩

/-- The rejection axios produces when the configured timeout elapses. -/
def wTimeoutErr : AxiosErr :=
  ⟨none, none, none, some "ECONNABORTED", "timeout of 30000ms exceeded"⟩

/-- A six-entry probability object, in insertion order. -/
def wProbs : List (String × ℚ) :=
  [("Healthy", 9/10), ("COPD", 4/5), ("Pneumonia", 7/10),
   ("Asthma", 3/5), ("LRTI", 1/2), ("URTI", 2/5)]

/-- A concrete page state in disease mode holding an earlier result. -/
def wStateD2 : PageState :=
  ⟨some wFile, .disease, false, some wRes, none, false, none, [], 0⟩

/-- A concrete well-formed detected interval. -/
def wDetEvent : DetectedEvent := ⟨2, 7/2, "wheeze", 4/5⟩

/-! Helper lemmas. -/

/-- Inserting an entry into a list with the descending comparator places it
in front of every entry of equal probability, so filtering at any fixed
probability sees the inserted entry first. -/
theorem filter_orderedInsert_probGE (q : ℚ) (a : String × ℚ) (l : List (String × ℚ)) :
    (l.orderedInsert probGE a).filter (fun x => x.2 = q) =
      if a.2 = q then a :: l.filter (fun x => x.2 = q)
      else l.filter (fun x => x.2 = q) := by
  induction l with
  | nil => by_cases h : a.2 = q <;> simp [List.orderedInsert, h]
  | cons b l ih =>
    by_cases hab : probGE a b
    · by_cases ha : a.2 = q <;>
        simp [List.orderedInsert, hab, List.filter_cons, ha]
    · have hlt : a.2 < b.2 := lt_of_not_le hab
      by_cases ha : a.2 = q
      · have hb : ¬ b.2 = q := by rw [← ha]; exact ne_of_gt hlt
        simp [List.orderedInsert, hab, List.filter_cons, hb, ih, ha]
      · simp only [List.orderedInsert, if_neg hab, List.filter_cons, ih, if_neg ha]

/-- The stable descending sort keeps the entries of each fixed probability in
their original relative order. -/
theorem filter_sortProbsDesc (q : ℚ) (l : List (String × ℚ)) :
    (sortProbsDesc l).filter (fun x => x.2 = q) = l.filter (fun x => x.2 = q) := by
  induction l with
  | nil => rfl
  | cons a l ih =>
    show ((sortProbsDesc l).orderedInsert probGE a).filter _ = _
    rw [filter_orderedInsert_probGE]
    by_cases h : a.2 = q <;> simp [List.filter_cons, h, ih]

/-- Folding a run of tag presses over a state inside an open window appends
exactly the corresponding events and touches nothing else the window owns. -/
theorem taps_fold (t0 : ℚ) (ht : t0 ≠ 0) :
    ∀ (acts : List UiAction) (s : PageState), (∀ a ∈ acts, isTap a = true) →
      s.isRecording = true → s.recordStartTime = some t0 →
      (acts.foldl stepUi s).annotEvents = s.annotEvents ++ acts.map (eventOfTap t0) ∧
      (acts.foldl stepUi s).result = s.result ∧
      (acts.foldl stepUi s).error = s.error ∧
      (acts.foldl stepUi s).recordingDuration = s.recordingDuration ∧
      (acts.foldl stepUi s).isRecording = true ∧
      (acts.foldl stepUi s).recordStartTime = some t0 := by
  intro acts
  induction acts with
  | nil => intro s _ h1 h2; simp [h1, h2]
  | cons a rest ih =>
    intro s hall h1 h2
    have ha : isTap a = true := hall a (List.mem_cons_self _ _)
    have hrest : ∀ b ∈ rest, isTap b = true := fun b hb => hall b (List.mem_cons_of_mem _ hb)
    cases a with
    | startRec t => simp [isTap] at ha
    | stopRec t => simp [isTap] at ha
    | crackle t =>
      have hstep : stepUi s (.crackle t) =
          { s with annotEvents := s.annotEvents ++ [⟨"crackle", (t - t0) / 1000, 1/2⟩] } := by
        simp [stepUi, addCrackle, h1, tsSince, h2, ht]
      have hmain := ih ({ s with annotEvents :=
          s.annotEvents ++ [⟨"crackle", (t - t0) / 1000, 1/2⟩] }) hrest (by simpa using h1)
        (by simpa using h2)
      rw [List.foldl_cons, hstep]
      refine ⟨?_, hmain.2.1, hmain.2.2.1, hmain.2.2.2.1, hmain.2.2.2.2⟩
      rw [hmain.1]
      simp [eventOfTap, List.append_assoc]
    | wheeze t =>
      have hstep : stepUi s (.wheeze t) =
          { s with annotEvents := s.annotEvents ++ [⟨"wheeze", (t - t0) / 1000, 1⟩] } := by
        simp [stepUi, addWheeze, h1, tsSince, h2, ht]
      have hmain := ih ({ s with annotEvents :=
          s.annotEvents ++ [⟨"wheeze", (t - t0) / 1000, 1⟩] }) hrest (by simpa using h1)
        (by simpa using h2)
      rw [List.foldl_cons, hstep]
      refine ⟨?_, hmain.2.1, hmain.2.2.1, hmain.2.2.2.1, hmain.2.2.2.2⟩
      rw [hmain.1]
      simp [eventOfTap, List.append_assoc]

/-! Claim theorems. -/

/-- Claim C1: in disease mode with a file present, handleUpload dispatches
exactly one POST of a multipart body whose single field is named file, to the
base URL joined with /predict_disease; in annotation mode with a non-empty
recorded event sequence it dispatches exactly one POST of the JSON body of
the recorded events plus the recorded duration, to the base URL joined with
/predict_annotation. -/
theorem handleUpload_dispatch (base : String) (s : PageState) (net : NetOutcome)
    (f : FileData) :
    (s.selectedModel = .disease → s.file = some f →
      (handleUpload base s net).requests =
        [⟨"POST", base ++ "/predict_disease", .multipart [("file", f)],
          "multipart/form-data", some 30000⟩]) ∧
    (s.selectedModel = .annot → s.annotEvents ≠ [] →
      (handleUpload base s net).requests =
        [⟨"POST", base ++ "/predict_annotation",
          .jsonEvents s.annotEvents s.recordingDuration,
          "application/json", some 30000⟩]) := by
  constructor
  · intro hm hf
    cases net <;> simp [handleUpload, hm, hf]
  · intro hm he
    have hlen : ¬ s.annotEvents.length = 0 := by simpa using he
    cases net <;> simp [handleUpload, hm, hlen]

/-- Witness for the dispatch theorem at concrete states in both modes. -/
theorem handleUpload_dispatch_witness :
    (handleUpload "https://api.example" wStateD (.ok wRes)).requests =
      [⟨"POST", "https://api.example/predict_disease", .multipart [("file", wFile)],
        "multipart/form-data", some 30000⟩] ∧
    (handleUpload "https://api.example" wStateA (.ok wRes)).requests =
      [⟨"POST", "https://api.example/predict_annotation", .jsonEvents wEvents (21/2),
        "application/json", some 30000⟩] :=
  ⟨(handleUpload_dispatch "https://api.example" wStateD (.ok wRes) wFile).1 rfl rfl,
   (handleUpload_dispatch "https://api.example" wStateA (.ok wRes) wFile).2 rfl (by decide)⟩

/-- Claim C4: in annotation mode with no recorded events, submission makes no
network call, never enters the uploading state, and surfaces the no-events
message. -/
theorem annot_empty_noop (base : String) (s : PageState) (net : NetOutcome)
    (hm : s.selectedModel = .annot) (he : s.annotEvents = []) :
    (handleUpload base s net).requests = [] ∧
    (handleUpload base s net).dispatched = false ∧
    (handleUpload base s net).final.isUploading = s.isUploading ∧
    (handleUpload base s net).final.error =
      some "Please record some crackles or wheezes first." := by
  have hl : s.annotEvents.length = 0 := by simp [he]
  simp [handleUpload, hm, hl]

/-- Witness for the empty-recording theorem at a concrete state. -/
theorem annot_empty_noop_witness :
    (handleUpload "https://api.example" wStateAEmpty (.ok wRes)).requests = [] ∧
    (handleUpload "https://api.example" wStateAEmpty (.ok wRes)).dispatched = false ∧
    (handleUpload "https://api.example" wStateAEmpty (.ok wRes)).final.isUploading =
      wStateAEmpty.isUploading ∧
    (handleUpload "https://api.example" wStateAEmpty (.ok wRes)).final.error =
      some "Please record some crackles or wheezes first." :=
  annot_empty_noop "https://api.example" wStateAEmpty (.ok wRes) rfl rfl

/-- Claim C5: a failed submission leaves the selected file, the recorded
event sequence, its duration and the selected model unchanged, so
resubmission needs no re-collection. -/
theorem failed_submit_preserves_input (base : String) (s : PageState) (e : AxiosErr) :
    (handleUpload base s (.fail e)).final.file = s.file ∧
    (handleUpload base s (.fail e)).final.annotEvents = s.annotEvents ∧
    (handleUpload base s (.fail e)).final.recordingDuration = s.recordingDuration ∧
    (handleUpload base s (.fail e)).final.selectedModel = s.selectedModel := by
  cases hm : s.selectedModel
  · cases hf : s.file <;> simp [handleUpload, hm, hf]
  · by_cases hl : s.annotEvents.length = 0 <;> simp [handleUpload, hm, hl]

/-- Claim C7: for a well-formed response interval the overlay fractions
left = start / duration and width = (end - start) / duration both lie
within the unit interval. -/
theorem overlay_frac_bounds (ev : DetectedEvent) (dur : ℚ)
    (h : wellFormedEvent ev dur) :
    0 ≤ overlayLeftFrac ev dur ∧ overlayLeftFrac ev dur ≤ 1 ∧
    0 ≤ overlayWidthFrac ev dur ∧ overlayWidthFrac ev dur ≤ 1 := by
  obtain ⟨hdur, hs, hse, hed⟩ := h
  refine ⟨div_nonneg hs hdur.le, ?_, div_nonneg (by linarith) hdur.le, ?_⟩
  · rw [overlayLeftFrac, div_le_one hdur]; linarith
  · rw [overlayWidthFrac, div_le_one hdur]; linarith

/-- Witness for the overlay theorem at a concrete interval. -/
theorem overlay_frac_bounds_witness :
    0 ≤ overlayLeftFrac wDetEvent 20 ∧ overlayLeftFrac wDetEvent 20 ≤ 1 ∧
    0 ≤ overlayWidthFrac wDetEvent 20 ∧ overlayWidthFrac wDetEvent 20 ≤ 1 :=
  overlay_frac_bounds wDetEvent 20 (by norm_num [wellFormedEvent, wDetEvent])

/-- Claim C2 counterexample: the request dispatched by handlePredict of
App.jsx carries no client-side timeout at all, so not every dispatched
request carries the 30 second timeout. -/
theorem handlePredict_no_timeout_cex :
    (handlePredict wAppState (.ok wRes)).requests.map HttpRequest.timeoutMs = [none] := by
  decide

/-- Claim C2 (amended): every request dispatched by handleUpload of page.tsx
carries the fixed 30000 ms timeout, and a rejection bearing the axios timeout
code with no 500 status and no truthy error payload is classified with the
mode-specific timeout message — mentioning a possibly oversized input in
disease mode and a plain retry in annotation mode — rather than the generic
connectivity message; the App.jsx variant configures no timeout. -/
theorem handleUpload_timeout (base : String) (s : PageState) (net : NetOutcome) :
    (∀ r ∈ (handleUpload base s net).requests, r.timeoutMs = some 30000) ∧
    (∀ e : AxiosErr, e.responseStatus ≠ some 500 → truthyStr e.responseDataError = false →
      e.code = some "ECONNABORTED" →
      classifyDiseaseErr e = "Request timeout. The audio file might be too large." ∧
      classifyAnnotErr e = "Request timeout. Please try again.") := by
  constructor
  · intro r hr
    cases hm : s.selectedModel
    · cases hf : s.file
      · simp [handleUpload, hm, hf] at hr
      · cases net <;> simp [handleUpload, hm, hf] at hr <;> simp [hr]
    · by_cases hl : s.annotEvents.length = 0
      · simp [handleUpload, hm, hl] at hr
      · cases net <;> simp [handleUpload, hm, hl] at hr <;> simp [hr]
  · intro e h1 h2 h3
    constructor <;> simp [classifyDiseaseErr, classifyAnnotErr, h1, h2, h3]

/-- Witness for the timeout theorem: the concrete disease-mode request and a
concrete timed-out rejection. -/
theorem handleUpload_timeout_witness :
    (⟨"POST", "https://api.example/predict_disease", .multipart [("file", wFile)],
      "multipart/form-data", some 30000⟩ : HttpRequest).timeoutMs = some 30000 ∧
    classifyDiseaseErr wTimeoutErr = "Request timeout. The audio file might be too large." ∧
    classifyAnnotErr wTimeoutErr = "Request timeout. Please try again." := by
  refine ⟨?_, ?_, ?_⟩
  · exact (handleUpload_timeout "https://api.example" wStateD (.ok wRes)).1 _ (by decide)
  · exact ((handleUpload_timeout "https://api.example" wStateD (.ok wRes)).2
      wTimeoutErr (by decide) (by decide) (by decide)).1
  · exact ((handleUpload_timeout "https://api.example" wStateD (.ok wRes)).2
      wTimeoutErr (by decide) (by decide) (by decide)).2

/-- Claim C3 counterexample: a 503 response with no error payload is not
given the try-again server-error message; it falls through to the generic
failure message. -/
theorem server_error_503_cex :
    (handleUpload "https://api.example" wStateD (.fail w503Err)).final.error =
      some "Failed to process audio file: Request failed with status code 503" ∧
    (handleUpload "https://api.example" wStateD (.fail w503Err)).final.error ≠
      some "Server error. Please try again later." := by
  constructor <;> decide

/-- Claim C3 (amended): a response with status exactly 500 is classified as
the server error with the try-again message in both modes, and a dispatched
failing submission surfaces exactly the classified message; any other 5xx
status with no truthy error payload and no timeout code falls through to the
generic failure message instead. -/
theorem server_error_500_only :
    (∀ e : AxiosErr, e.responseStatus = some 500 →
      classifyDiseaseErr e = "Server error. Please try again later." ∧
      classifyAnnotErr e = "Server error. Please try again later.") ∧
    (∀ (base : String) (s : PageState) (f : FileData) (e : AxiosErr),
      s.selectedModel = .disease → s.file = some f →
      (handleUpload base s (.fail e)).final.error = some (classifyDiseaseErr e)) ∧
    (∀ (base : String) (s : PageState) (e : AxiosErr),
      s.selectedModel = .annot → s.annotEvents ≠ [] →
      (handleUpload base s (.fail e)).final.error = some (classifyAnnotErr e)) ∧
    (∀ (e : AxiosErr) (n : Nat), e.responseStatus = some n → 500 < n → n < 600 →
      truthyStr e.responseDataError = false → e.code ≠ some "ECONNABORTED" →
      classifyDiseaseErr e = "Failed to process audio file: " ++ e.message ∧
      classifyAnnotErr e = "Failed to process annotation data: " ++ e.message) := by
  refine ⟨?_, ?_, ?_, ?_⟩
  · intro e h
    constructor <;> simp [classifyDiseaseErr, classifyAnnotErr, h]
  · intro base s f e hm hf
    simp [handleUpload, hm, hf]
  · intro base s e hm he
    have hl : ¬ s.annotEvents.length = 0 := by simpa using he
    simp [handleUpload, hm, hl]
  · intro e n hn h500 h600 hp hc
    have hne500 : e.responseStatus ≠ some 500 := by
      rw [hn]; intro h; injection h with h; omega
    have hne400 : e.responseStatus ≠ some 400 := by
      rw [hn]; intro h; injection h with h; omega
    constructor <;>
      simp [classifyDiseaseErr, classifyAnnotErr, hne500, hne400, hp, hc]

/-- Witness for the server-error theorem at concrete rejections and states. -/
theorem server_error_500_only_witness :
    classifyDiseaseErr w500Err = "Server error. Please try again later." ∧
    (handleUpload "https://api.example" wStateD (.fail w500Err)).final.error =
      some (classifyDiseaseErr w500Err) ∧
    (handleUpload "https://api.example" wStateA (.fail w500Err)).final.error =
      some (classifyAnnotErr w500Err) ∧
    classifyDiseaseErr w503Err = "Failed to process audio file: " ++ w503Err.message := by
  refine ⟨(server_error_500_only.1 w500Err rfl).1, ?_, ?_, ?_⟩
  · exact server_error_500_only.2.1 "https://api.example" wStateD wFile w500Err rfl rfl
  · exact server_error_500_only.2.2.1 "https://api.example" wStateA w500Err rfl (by decide)
  · exact (server_error_500_only.2.2.2 w503Err 503 rfl (by decide) (by decide)
      (by decide) (by decide)).1

/-- Claim C6 counterexample: with six probability entries the main page
renders only five of them; the smallest entry belongs to the distribution
but is absent from the rendered list. -/
theorem probs_top_five_cex :
    ("URTI", (2:ℚ)/5) ∈ wProbs ∧ ("URTI", (2:ℚ)/5) ∉ renderProbsPage wProbs := by
  constructor
  · simp [wProbs]
  · norm_num [renderProbsPage, sortProbsDesc, wProbs, probGE,
      List.insertionSort, List.orderedInsert]

/-- Claim C6 (amended): the rendered probability list is sorted descending by
probability value with ties kept in the original entry order; the part_000
rendering lists every entry of the distribution, while page.tsx renders only
the first five entries of that ordering. -/
theorem probs_sorted_stable (l : List (String × ℚ)) :
    (renderProbsAll l).Perm l ∧
    List.Sorted probGE (renderProbsAll l) ∧
    (∀ q : ℚ, (renderProbsAll l).filter (fun x => x.2 = q) =
      l.filter (fun x => x.2 = q)) ∧
    (∃ rest, renderProbsAll l = renderProbsPage l ++ rest) ∧
    (renderProbsPage l).length = min 5 l.length := by
  refine ⟨List.perm_insertionSort _ _, List.sorted_insertionSort _ _,
    fun q => filter_sortProbsDesc q l,
    ⟨(sortProbsDesc l).drop 5, (List.take_append_drop 5 _).symm⟩, ?_⟩
  rw [renderProbsPage, List.length_take, sortProbsDesc, List.length_insertionSort]

/-- Claim C8 counterexample: on the main page in disease mode with no file
selected, submission makes no request but also surfaces no message at all:
the error state stays empty. -/
theorem no_input_silent_cex :
    (handleUpload "https://api.example" wStateNoFile (.ok wRes)).requests = [] ∧
    (handleUpload "https://api.example" wStateNoFile (.ok wRes)).final.error = none := by
  decide

/-- Claim C8 (amended): submitting with no input selected never issues a
network call; the App.jsx variant surfaces its no-file message, while the
disease branch of page.tsx returns silently with the state unchanged (the
annotation branch surfaces the no-events message, per the empty-recording
theorem). -/
theorem no_input_blocks (base : String) (s : PageState) (sa : AppState)
    (net na : NetOutcome)
    (hm : s.selectedModel = .disease) (hf : s.file = none)
    (haf : sa.selectedFile = none) :
    (handleUpload base s net).requests = [] ∧
    (handleUpload base s net).dispatched = false ∧
    (handleUpload base s net).final = s ∧
    (handlePredict sa na).requests = [] ∧
    (handlePredict sa na).dispatched = false ∧
    (handlePredict sa na).final.error = some "Please select an audio file first" := by
  simp [handleUpload, handlePredict, hm, hf, haf]

/-- Witness for the no-input theorem at concrete states of both components. -/
theorem no_input_blocks_witness :
    (handleUpload "https://api.example" wStateNoFile (.ok wRes)).requests = [] ∧
    (handleUpload "https://api.example" wStateNoFile (.ok wRes)).dispatched = false ∧
    (handleUpload "https://api.example" wStateNoFile (.ok wRes)).final = wStateNoFile ∧
    (handlePredict wAppStateNoFile (.ok wRes)).requests = [] ∧
    (handlePredict wAppStateNoFile (.ok wRes)).dispatched = false ∧
    (handlePredict wAppStateNoFile (.ok wRes)).final.error =
      some "Please select an audio file first" :=
  no_input_blocks "https://api.example" wStateNoFile wAppStateNoFile
    (.ok wRes) (.ok wRes) rfl rfl rfl

/-- Claim C9: handleUpload never clears the stored result, so after a failed
resubmission the earlier result is still stored next to the newly classified
message; a dispatched successful call leaves the error cleared instead. -/
theorem failed_resubmit_keeps_result (base : String) (s : PageState) (e : AxiosErr)
    (r : PredictionResult) (hr : s.result = some r) :
    (handleUpload base s (.fail e)).final.result = some r ∧
    (∀ f, s.selectedModel = .disease → s.file = some f →
      (handleUpload base s (.fail e)).final.error = some (classifyDiseaseErr e)) ∧
    (s.selectedModel = .annot → s.annotEvents ≠ [] →
      (handleUpload base s (.fail e)).final.error = some (classifyAnnotErr e)) ∧
    (∀ data, (handleUpload base s (.ok data)).dispatched = true →
      (handleUpload base s (.ok data)).final.error = none) := by
  refine ⟨?_, ?_, ?_, ?_⟩
  · cases hm : s.selectedModel
    · cases hf : s.file <;> simp [handleUpload, hm, hf, hr]
    · by_cases hl : s.annotEvents.length = 0 <;> simp [handleUpload, hm, hl, hr]
  · intro f hm hf
    simp [handleUpload, hm, hf]
  · intro hm he
    have hl : ¬ s.annotEvents.length = 0 := by simpa using he
    simp [handleUpload, hm, hl]
  · intro data hd
    cases hm : s.selectedModel
    · cases hf : s.file
      · simp [handleUpload, hm, hf] at hd
      · simp [handleUpload, hm, hf]
    · by_cases hl : s.annotEvents.length = 0
      · simp [handleUpload, hm, hl] at hd
      · simp [handleUpload, hm, hl]

/-- Witness for the result-preservation theorem at a concrete resubmission. -/
theorem failed_resubmit_keeps_result_witness :
    (handleUpload "https://api.example" wStateD2 (.fail w503Err)).final.result =
      some wRes ∧
    (handleUpload "https://api.example" wStateD2 (.fail w503Err)).final.error =
      some (classifyDiseaseErr w503Err) ∧
    (handleUpload "https://api.example" wStateD2 (.ok wRes)).final.error = none := by
  have h := failed_resubmit_keeps_result "https://api.example" wStateD2 w503Err wRes rfl
  exact ⟨h.1, h.2.1 wFile rfl rfl, h.2.2.2 wRes (by decide)⟩

/-- Claim C10: starting a recording window discards all previously recorded
events, resets the recorded duration to zero and clears any previous result
and error; and after any run of tag presses inside the open window the event
sequence holds exactly the events appended during the window, timestamped
relative to the window start. -/
theorem recording_window_events (s : PageState) (t0 : ℚ) (acts : List UiAction)
    (ht : t0 ≠ 0) (hacts : ∀ a ∈ acts, isTap a = true) :
    (startRecording t0 s).annotEvents = [] ∧
    (startRecording t0 s).recordingDuration = 0 ∧
    (startRecording t0 s).result = none ∧
    (startRecording t0 s).error = none ∧
    (acts.foldl stepUi (startRecording t0 s)).annotEvents = acts.map (eventOfTap t0) ∧
    (acts.foldl stepUi (startRecording t0 s)).result = none ∧
    (acts.foldl stepUi (startRecording t0 s)).error = none := by
  have h := taps_fold t0 ht acts (startRecording t0 s) hacts
    (by simp [startRecording]) (by simp [startRecording])
  refine ⟨rfl, rfl, rfl, rfl, ?_, ?_, ?_⟩
  · simpa [startRecording] using h.1
  · simpa [startRecording] using h.2.1
  · simpa [startRecording] using h.2.2.1

/-- Witness for the recording-window theorem: a window opened at 5 ms with a
crackle press at 1505 ms and a wheeze press at 2505 ms. -/
theorem recording_window_events_witness :
    ([UiAction.crackle 1505, UiAction.wheeze 2505].foldl stepUi
        (startRecording 5 wStateAEmpty)).annotEvents =
      [⟨"crackle", 3/2, 1/2⟩, ⟨"wheeze", 5/2, 1⟩] := by
  have h := recording_window_events wStateAEmpty 5
    [UiAction.crackle 1505, UiAction.wheeze 2505] (by norm_num) (by decide)
  rw [h.2.2.2.2.1]
  norm_num [eventOfTap]

end Respirex
